import Mathlib

/-!
Shallow embedding of the retry/escalation scheduler of
`indiazona_custom/utils/auto_task.py`.

Modelling conventions:
- dates are `Int` day numbers and datetimes are `Int` minute numbers;
  `nowdate()` becomes a `today : Int` parameter, `add_days d n` becomes
  `d + n`, `add_to_date t hours=h minutes=m` becomes `t + 60*h + m`.
- the Frappe record store is a `Store` of association lists keyed by
  record name; `frappe.get_doc` is a lookup, `doc.save` replaces the
  entry, `doc.insert` appends a fresh entry.
- Frappe writes are transactional: a write done by `save`/`insert` is
  visible to reads inside the same job (the `pending` store) but is
  durable only after `frappe.db.commit()` copies `pending` into
  `committed`.  A function whose exception escapes to the Frappe
  scheduler or request handler has its uncommitted writes rolled back,
  so the observable state of a run is its `committed` store.
- fallible persistence operations (save / insert / sendmail / commit)
  consume one entry of a failure schedule `sched : List Bool`; `true`
  (also past the end of the list) means the operation succeeds, `false`
  means it raises.  The success-path behaviour is the run on `[]`.
- a job or request that finishes without an escaped exception has its
  remaining pending writes committed by the framework at the end; this
  applies to the whitelisted `create_callback_task` request handler and
  to the scheduled sweeps, whose outer handlers swallow every exception.
-/

namespace IndiazonaCRM

/-- A "CRM Task" record with the fields `auto_task.py` reads and writes.
Field names follow the source (`custom_callback_date_time` stands for the
source field `custom_callback_date__time`, a distinct field from
`custom_callback_datetime`). -/
structure Task where
  title : String
  assigned_to : String
  status : String
  priority : String
  description : String
  start_date : Int
  due_date : Int
  custom_attempt_number : Option Nat
  custom_max_attempts : Option Nat
  custom_retry_interval_days : Option Nat
  custom_lead_name : String
  custom_previous_task : Option String
  custom_retry_created : Bool
  custom_callback_datetime : Option Int
  custom_callback_date_time : Option Int
  custom_callback_notification_sent : Bool
  deriving DecidableEq

/-- A "CRM Lead" record: its status and the list of comments appended by
`add_comment`. -/
structure Lead where
  status : String
  comments : List String
  deriving DecidableEq

/-- A "ToDo" assignment record. -/
structure ToDoRec where
  allocated_to : String
  reference_name : String
  description : String
  priority : String
  deriving DecidableEq

/-- A "Notification Log" record. -/
structure NotifRec where
  subject : String
  for_user : String
  document_name : String
  deriving DecidableEq

/-- An email sent through `frappe.sendmail`. -/
structure EmailRec where
  recipient : String
  subject : String
  reference_name : String
  deriving DecidableEq

/-- Lookup in an association list keyed by record name. -/
def lookupA {α : Type} (l : List (String × α)) (k : String) : Option α :=
  match l with
  | [] => none
  | (k2, v) :: rest => if k2 = k then some v else lookupA rest k

/-- Replace the value under key `k` (append when absent); this models
`doc.save` on a fetched record. -/
def setA {α : Type} (l : List (String × α)) (k : String) (v : α) : List (String × α) :=
  match l with
  | [] => [(k, v)]
  | (k2, v2) :: rest => if k2 = k then (k, v) :: rest else (k2, v2) :: setA rest k v

/-- The record store: tasks and leads by name, plus append-only lists of
assignments, notification-log entries and sent emails, the user → email
map, and a counter used to generate fresh task names on insert. -/
structure Store where
  nextId : Nat
  tasks : List (String × Task)
  leads : List (String × Lead)
  todos : List ToDoRec
  notifLog : List NotifRec
  emailsSent : List EmailRec
  users : List (String × String)
  deriving DecidableEq

def Store.getTask (s : Store) (n : String) : Option Task :=
  lookupA s.tasks n

def Store.saveTask (s : Store) (n : String) (t : Task) : Store :=
  { s with tasks := setA s.tasks n t }

/-- The name the store gives to the next inserted task. -/
def freshTaskName (s : Store) : String :=
  "CRM-TASK-" ++ toString s.nextId

/-- Insert a new task under a fresh name, returning the new store and the
generated name. -/
def Store.insertTask (s : Store) (t : Task) : Store × String :=
  ({ s with nextId := s.nextId + 1, tasks := s.tasks ++ [(freshTaskName s, t)] },
   freshTaskName s)

def Store.getLead (s : Store) (n : String) : Option Lead :=
  lookupA s.leads n

def Store.saveLead (s : Store) (n : String) (l : Lead) : Store :=
  { s with leads := setA s.leads n l }

def Store.insertToDo (s : Store) (td : ToDoRec) : Store :=
  { s with todos := s.todos ++ [td] }

def Store.insertNotif (s : Store) (nr : NotifRec) : Store :=
  { s with notifLog := s.notifLog ++ [nr] }

def Store.sendEmail (s : Store) (e : EmailRec) : Store :=
  { s with emailsSent := s.emailsSent ++ [e] }

def Store.userEmail (s : Store) (u : String) : Option String :=
  lookupA s.users u

/-- Transactional view of the database: `committed` is the durable state,
`pending` the state seen by reads inside the current job. -/
structure DB where
  committed : Store
  pending : Store
  deriving DecidableEq

/-- `frappe.db.commit()`: make all pending writes durable. -/
def DB.commit (db : DB) : DB :=
  ⟨db.pending, db.pending⟩

/-- A database with no pending writes, as at the start of a job. -/
def mkDB (s : Store) : DB :=
  ⟨s, s⟩

/-- Consume one entry of a failure schedule: the head decides whether the
next persistence operation succeeds (`true`, also when the schedule is
exhausted) or raises (`false`). -/
def takeStep (sched : List Bool) : Bool × List Bool :=
  (sched.headD true, sched.tail)

/-- Whether a run of `create_retry_task` returned normally or raised. -/
inductive Outcome where
  | ok : Outcome
  | error : Outcome
  deriving DecidableEq

/-- Result of a run of `create_retry_task`: outcome, database, and the
remaining failure schedule. -/
structure RetryResult where
  outcome : Outcome
  db : DB
  sched : List Bool
  deriving DecidableEq

/-- The fields of the new retry task built in `create_retry_task`. -/
def retryTaskFields (lead_name previous_task_name : String)
    (new_attempt max_attempts : Nat) (assigned_to : String) (today : Int) : Task :=
  { title := "Retry Call - Attempt " ++ toString new_attempt
    assigned_to := assigned_to
    status := "Todo"
    priority := "Medium"
    description := "Retry task auto-created for lead " ++ lead_name ++
      " - Attempt " ++ toString new_attempt ++ "/" ++ toString max_attempts
    start_date := today
    due_date := today + 2
    custom_attempt_number := some new_attempt
    custom_max_attempts := some max_attempts
    custom_retry_interval_days := some 2
    custom_lead_name := lead_name
    custom_previous_task := some previous_task_name
    custom_retry_created := false
    custom_callback_datetime := none
    custom_callback_date_time := none
    custom_callback_notification_sent := false }

/-- The provenance comment appended to the lead on escalation. -/
def escalationComment (max_attempts : Nat) : String :=
  "Lead status automatically changed to Inactive / Dropped after " ++
    toString max_attempts ++ " unsuccessful contact attempts"

/-- `create_retry_task(lead_name, previous_task_name, attempt_number,
assigned_to, max_attempts)`: fetch the previous task; no-op if its
`custom_retry_created` flag is set or its status is no longer
"Call Not Connected"; escalate the lead to "Inactive / Dropped" when
`attempt_number >= max_attempts`; otherwise insert the next retry task,
flip the guard flag of the previous task, insert a ToDo when `assigned_to` is
non-empty, and commit.  Exceptions propagate to the caller (`raise`), so
a failing run returns `Outcome.error` without committing. -/
def create_retry_task (db : DB) (sched : List Bool)
    (lead_name previous_task_name : String) (attempt_number : Nat)
    (assigned_to : String) (max_attempts : Nat) (today : Int) : RetryResult :=
  match db.pending.getTask previous_task_name with
  | none => ⟨Outcome.error, db, sched⟩
  | some prev =>
    if prev.custom_retry_created then ⟨Outcome.ok, db, sched⟩
    else if prev.status ≠ "Call Not Connected" then ⟨Outcome.ok, db, sched⟩
    else if max_attempts ≤ attempt_number then
      -- escalation branch: mark processed, drop the lead, commit
      let st1 := takeStep sched
      if st1.1 = false then ⟨Outcome.error, db, st1.2⟩
      else
        let prevDone : Task := { prev with custom_retry_created := true }
        let p1 : DB := { db with pending := db.pending.saveTask previous_task_name prevDone }
        match p1.pending.getLead lead_name with
        | none => ⟨Outcome.error, p1, st1.2⟩
        | some ld =>
          let st2 := takeStep st1.2
          if st2.1 = false then ⟨Outcome.error, p1, st2.2⟩
          else
            let ld2 : Lead :=
              { ld with
                status := "Inactive / Dropped"
                comments := ld.comments ++ [escalationComment max_attempts] }
            let p2 : DB := { p1 with pending := p1.pending.saveLead lead_name ld2 }
            let st3 := takeStep st2.2
            if st3.1 = false then ⟨Outcome.error, p2, st3.2⟩
            else ⟨Outcome.ok, p2.commit, st3.2⟩
    else
      -- retry branch: insert the next attempt, then flip the guard flag
      let new_attempt := attempt_number + 1
      let st1 := takeStep sched
      if st1.1 = false then ⟨Outcome.error, db, st1.2⟩
      else
        let ins := db.pending.insertTask
          (retryTaskFields lead_name previous_task_name new_attempt max_attempts
            assigned_to today)
        let p1 : DB := { db with pending := ins.1 }
        let st2 := takeStep st1.2
        if st2.1 = false then ⟨Outcome.error, p1, st2.2⟩
        else
          let prevDone : Task := { prev with custom_retry_created := true }
          let p2 : DB := { p1 with pending := p1.pending.saveTask previous_task_name prevDone }
          if assigned_to ≠ "" then
            let st3 := takeStep st2.2
            if st3.1 = false then ⟨Outcome.error, p2, st3.2⟩
            else
              let td : ToDoRec :=
                { allocated_to := assigned_to
                  reference_name := ins.2
                  description := "Retry task assigned: Retry Call - Attempt " ++
                    toString new_attempt
                  priority := "Medium" }
              let p3 : DB := { p2 with pending := p2.pending.insertToDo td }
              let st4 := takeStep st3.2
              if st4.1 = false then ⟨Outcome.error, p3, st4.2⟩
              else ⟨Outcome.ok, p3.commit, st4.2⟩
          else
            let st3 := takeStep st2.2
            if st3.1 = false then ⟨Outcome.error, p2, st3.2⟩
            else ⟨Outcome.ok, p2.commit, st3.2⟩

/-- The filter of the daily sweep `check_all_pending_retry_tasks`, as the
source writes it: status "Call Not Connected", `due_date >= nowdate()`
(note the comparator direction in the source), and
`custom_retry_created == 0`. -/
def pendingRetryFilter (today : Int) (t : Task) : Bool :=
  t.status == "Call Not Connected" && decide (today ≤ t.due_date) &&
    !t.custom_retry_created

/-- Modelled from the spec: the sweep filter as the spec words it,
"status Call Not Connected, due-date ≤ now, and retryCreated == false";
used only to compare with `pendingRetryFilter`, which is translated from
the source. -/
def pendingRetryFilterSpec (today : Int) (t : Task) : Bool :=
  t.status == "Call Not Connected" && decide (t.due_date ≤ today) &&
    !t.custom_retry_created

/-- The attempt number the sweep passes to `create_retry_task`:
`int(custom_attempt_number) if custom_attempt_number else 1` (absent and
zero are falsy). -/
def sweepAttempt (t : Task) : Nat :=
  match t.custom_attempt_number with
  | none => 1
  | some 0 => 1
  | some n => n

/-- The max-attempts the sweep passes: defaults to 10 when the field is
absent or falsy. -/
def sweepMax (t : Task) : Nat :=
  match t.custom_max_attempts with
  | none => 10
  | some 0 => 10
  | some m => m

/-- `check_all_pending_retry_tasks()`: query the tasks matching
`pendingRetryFilter`, then invoke `create_retry_task` on each; a
per-item exception is caught and the loop continues, so the outcome of
each item is discarded and the database — pending writes of the failed
item included — is threaded on, and, because the outer handler also
swallows every exception, the scheduler commits whatever is still
pending at the end of the job. -/
def check_all_pending_retry_tasks (db : DB) (sched : List Bool) (today : Int) :
    DB × List Bool :=
  let sel := db.pending.tasks.filter (fun p => pendingRetryFilter today p.2)
  let r := sel.foldl
    (fun acc p =>
      let r := create_retry_task acc.1 acc.2 p.2.custom_lead_name p.1
        (sweepAttempt p.2) p.2.assigned_to (sweepMax p.2) today
      (r.db, r.sched))
    (db, sched)
  (r.1.commit, r.2)

/-- The fields of the follow-up task built in `schedule_followup_task`:
start and due `days_after` days out, `custom_previous_task` set, but no
attempt-number, max-attempts or retry fields. -/
def followupTaskFields (lead_name task_name task_assigned_to : String)
    (title description : String) (days_after : Nat) (today : Int) : Task :=
  { title := title
    assigned_to := task_assigned_to
    status := "Todo"
    priority := "High"
    description := description
    start_date := today + days_after
    due_date := today + days_after
    custom_attempt_number := none
    custom_max_attempts := none
    custom_retry_interval_days := none
    custom_lead_name := lead_name
    custom_previous_task := some task_name
    custom_retry_created := false
    custom_callback_datetime := none
    custom_callback_date_time := none
    custom_callback_notification_sent := false }

/-- `schedule_followup_task(lead_doc, task_doc, title, days_after,
description)`: insert the follow-up task, insert a ToDo when the previous
task has an assignee, commit; every exception is caught and swallowed, so
a failing run returns the database as it stood. -/
def schedule_followup_task (db : DB) (sched : List Bool)
    (lead_name task_name task_assigned_to : String) (title : String)
    (days_after : Nat) (description : String) (today : Int) : DB × List Bool :=
  let st1 := takeStep sched
  if st1.1 = false then (db, st1.2)
  else
    let ins := db.pending.insertTask
      (followupTaskFields lead_name task_name task_assigned_to title description
        days_after today)
    let p1 : DB := { db with pending := ins.1 }
    if task_assigned_to ≠ "" then
      let st2 := takeStep st1.2
      if st2.1 = false then (p1, st2.2)
      else
        let td : ToDoRec :=
          { allocated_to := task_assigned_to
            reference_name := ins.2
            description := "Follow-up task assigned: " ++ title
            priority := "High" }
        let p2 : DB := { p1 with pending := p1.pending.insertToDo td }
        let st3 := takeStep st2.2
        if st3.1 = false then (p2, st3.2)
        else (p2.commit, st3.2)
    else
      let st3 := takeStep st1.2
      if st3.1 = false then (p1, st3.2)
      else (p1.commit, st3.2)

/-- The result dictionary of `create_callback_task`. -/
structure CallbackResult where
  success : Bool
  task_name : Option String
  deriving DecidableEq

/-- The fields of the new callback task built in `create_callback_task`.
The source puts the callback time in the field `custom_callback_date__time`
(the field the notification sweep queries), not in `custom_callback_datetime`
(the field stamped on the original task).  Dates and datetimes share the
`Int` minute scale here, so `getdate` is the identity. -/
def callbackTaskFields (orig : Task) (task_name : String) (cb : Int) : Task :=
  { title := "Scheduled Callback - " ++ orig.title
    assigned_to := orig.assigned_to
    status := "Todo"
    priority := "High"
    description := "Scheduled callback task. Original task: " ++ task_name
    start_date := cb
    due_date := cb
    custom_attempt_number := none
    custom_max_attempts := none
    custom_retry_interval_days := none
    custom_lead_name := orig.custom_lead_name
    custom_previous_task := some task_name
    custom_retry_created := false
    custom_callback_datetime := none
    custom_callback_date_time := some cb
    custom_callback_notification_sent := false }

/-- The body of `create_callback_task(task_name, callback_datetime,
notes)`: stamp `custom_callback_datetime` on the original task and save
it, insert the new callback task, insert a ToDo when assigned, append a
lead comment when the original task has a lead, commit, and return
success; every exception is caught and turned into
`{success := false}`. -/
def create_callback_task_body (db : DB) (sched : List Bool) (task_name : String)
    (cb : Int) : CallbackResult × DB × List Bool :=
  match db.pending.getTask task_name with
  | none => (⟨false, none⟩, db, sched)
  | some orig =>
    let st1 := takeStep sched
    if st1.1 = false then (⟨false, none⟩, db, st1.2)
    else
      let stamped : Task := { orig with custom_callback_datetime := some cb }
      let p1 : DB := { db with pending := db.pending.saveTask task_name stamped }
      let st2 := takeStep st1.2
      if st2.1 = false then (⟨false, none⟩, p1, st2.2)
      else
        let ins := p1.pending.insertTask (callbackTaskFields orig task_name cb)
        let p2 : DB := { p1 with pending := ins.1 }
        let afterToDo : Option (DB × List Bool) :=
          if orig.assigned_to ≠ "" then
            let st3 := takeStep st2.2
            if st3.1 = false then none
            else
              let td : ToDoRec :=
                { allocated_to := orig.assigned_to
                  reference_name := ins.2
                  description := "Scheduled callback"
                  priority := "High" }
              some ({ p2 with pending := p2.pending.insertToDo td }, st3.2)
          else some (p2, st2.2)
        match afterToDo with
        | none => (⟨false, none⟩, p2, (takeStep st2.2).2)
        | some (p3, s3) =>
          let afterLead : Option (DB × List Bool) :=
            if orig.custom_lead_name ≠ "" then
              match p3.pending.getLead orig.custom_lead_name with
              | none => none
              | some ld =>
                let st4 := takeStep s3
                if st4.1 = false then none
                else
                  let ld2 : Lead := { ld with comments := ld.comments ++
                    ["Callback scheduled. Task: " ++ ins.2] }
                  some ({ p3 with pending := p3.pending.saveLead orig.custom_lead_name ld2 },
                    st4.2)
            else some (p3, s3)
          match afterLead with
          | none => (⟨false, none⟩, p3, s3)
          | some (p4, s4) =>
            let st5 := takeStep s4
            if st5.1 = false then (⟨false, none⟩, p4, st5.2)
            else (⟨true, some ins.2⟩, p4.commit, st5.2)

/-- `create_callback_task` as a whitelisted endpoint: the body swallows
every exception and returns a plain dictionary, so the request handler
never sees an exception and commits the open transaction at the end of
the request, persisting whatever writes the body made before failing. -/
def create_callback_task (db : DB) (sched : List Bool) (task_name : String)
    (cb : Int) : CallbackResult × DB × List Bool :=
  let r := create_callback_task_body db sched task_name cb
  (r.1, r.2.1.commit, r.2.2)

/-- The filter of `send_callback_notifications`: the SQL
`between [now+1h, now+1h30m]` (inclusive at both ends) on
`custom_callback_date__time`, notification not yet sent, and status not
"Completed"; a task without a callback time never matches. -/
def callbackSelects (now : Int) (t : Task) : Bool :=
  match t.custom_callback_date_time with
  | none => false
  | some cb =>
    decide (now + 60 ≤ cb) && decide (cb ≤ now + 90) &&
      !t.custom_callback_notification_sent && !(t.status == "Completed")

/-- Modelled from the spec: the half-open notification window
"[now+1h, now+1h30m)" the spec words describe; used only to compare with
`callbackSelects`, which is translated from the source. -/
def callbackWindowSpec (now cb : Int) : Bool :=
  decide (now + 60 ≤ cb) && decide (cb < now + 90)

/-- `send_callback_reminder_notification(task_data)`: insert a
Notification Log entry, send an email when the task has an assignee with
a known address, set `custom_callback_notification_sent`, save and
commit; every exception is caught and swallowed. -/
def send_callback_reminder_notification (db : DB) (sched : List Bool)
    (task_name : String) : DB × List Bool :=
  match db.pending.getTask task_name with
  | none => (db, sched)
  | some t =>
    let st1 := takeStep sched
    if st1.1 = false then (db, st1.2)
    else
      let nr : NotifRec :=
        { subject := "Callback Reminder: " ++ t.title
          for_user := t.assigned_to
          document_name := task_name }
      let p1 : DB := { db with pending := db.pending.insertNotif nr }
      let afterMail : Option (DB × List Bool) :=
        if t.assigned_to ≠ "" then
          match p1.pending.userEmail t.assigned_to with
          | none => some (p1, st1.2)
          | some addr =>
            let st2 := takeStep st1.2
            if st2.1 = false then none
            else
              let em : EmailRec :=
                { recipient := addr
                  subject := "Callback Reminder: " ++ t.title
                  reference_name := task_name }
              some ({ p1 with pending := p1.pending.sendEmail em }, st2.2)
        else some (p1, st1.2)
      match afterMail with
      | none => (p1, (takeStep st1.2).2)
      | some (p2, s2) =>
        let st3 := takeStep s2
        if st3.1 = false then (p2, st3.2)
        else
          let sent : Task := { t with custom_callback_notification_sent := true }
          let p3 : DB := { p2 with pending := p2.pending.saveTask task_name sent }
          let st4 := takeStep st3.2
          if st4.1 = false then (p3, st4.2)
          else (p3.commit, st4.2)

/-- `send_callback_notifications()`: query the tasks matching
`callbackSelects` at the current time and run the reminder for each. -/
def send_callback_notifications (db : DB) (sched : List Bool) (now : Int) :
    DB × List Bool :=
  let sel := db.pending.tasks.filter (fun p => callbackSelects now p.2)
  sel.foldl (fun acc p => send_callback_reminder_notification acc.1 acc.2 p.1)
    (db, sched)

/-! ## Association-list lemmas -/

theorem lookupA_setA_self {α : Type} (l : List (String × α)) (k : String) (v : α) :
    lookupA (setA l k v) k = some v := by
  induction l with
  | nil => simp [setA, lookupA]
  | cons p rest ih =>
    obtain ⟨k2, v2⟩ := p
    by_cases h : k2 = k
    · simp [setA, h, lookupA]
    · simp [setA, h, lookupA, ih]

theorem lookupA_setA_ne {α : Type} (l : List (String × α)) (k k2 : String) (v : α)
    (h : k ≠ k2) : lookupA (setA l k v) k2 = lookupA l k2 := by
  induction l with
  | nil => simp [setA, lookupA, h]
  | cons p rest ih =>
    obtain ⟨k3, v3⟩ := p
    by_cases h3 : k3 = k
    · subst h3
      simp [setA, lookupA, h]
    · simp [setA, h3, lookupA, ih]

theorem length_setA_of_mem {α : Type} (l : List (String × α)) (k : String) (v w : α)
    (h : lookupA l k = some w) : (setA l k v).length = l.length := by
  induction l with
  | nil => simp [lookupA] at h
  | cons p rest ih =>
    obtain ⟨k2, v2⟩ := p
    by_cases h2 : k2 = k
    · simp [setA, h2]
    · simp [lookupA, h2] at h
      simp [setA, h2, ih h]

theorem lookupA_append_of_some {α : Type} (l l2 : List (String × α)) (k : String)
    (v : α) (h : lookupA l k = some v) : lookupA (l ++ l2) k = some v := by
  induction l with
  | nil => simp [lookupA] at h
  | cons p rest ih =>
    obtain ⟨k2, v2⟩ := p
    by_cases h2 : k2 = k
    · simp [lookupA, h2] at h ⊢
      exact h
    · simp [lookupA, h2] at h ⊢
      exact ih h

theorem lookupA_append_of_none {α : Type} (l l2 : List (String × α)) (k : String)
    (h : lookupA l k = none) : lookupA (l ++ l2) k = lookupA l2 k := by
  induction l with
  | nil => simp
  | cons p rest ih =>
    obtain ⟨k2, v2⟩ := p
    by_cases h2 : k2 = k
    · simp [lookupA, h2] at h
    · simp [lookupA, h2] at h ⊢
      exact ih h

theorem setA_append_of_some {α : Type} (l l2 : List (String × α)) (k : String)
    (v w : α) (h : lookupA l k = some w) : setA (l ++ l2) k v = setA l k v ++ l2 := by
  induction l with
  | nil => simp [lookupA] at h
  | cons p rest ih =>
    obtain ⟨k2, v2⟩ := p
    by_cases h2 : k2 = k
    · simp [setA, h2]
    · simp [lookupA, h2] at h
      simp [setA, h2, ih h]

/-! ## Small store lemmas -/

theorem getLead_saveTask (s : Store) (n : String) (t : Task) (nm : String) :
    (s.saveTask n t).getLead nm = s.getLead nm := rfl

theorem getTask_saveLead (s : Store) (n : String) (l : Lead) (nm : String) :
    (s.saveLead n l).getTask nm = s.getTask nm := rfl

theorem getTask_insertToDo (s : Store) (td : ToDoRec) (nm : String) :
    (s.insertToDo td).getTask nm = s.getTask nm := rfl

theorem getTask_insertNotif (s : Store) (nr : NotifRec) (nm : String) :
    (s.insertNotif nr).getTask nm = s.getTask nm := rfl

theorem getTask_sendEmail (s : Store) (e : EmailRec) (nm : String) :
    (s.sendEmail e).getTask nm = s.getTask nm := rfl

/-! ## No-op guards of the retry evaluator -/

/-- Idempotency guard of `create_retry_task`: a previous task whose
`custom_retry_created` flag is already set makes the whole call a no-op
for any failure schedule and any attempt number. -/
theorem create_retry_task_flagged_noop (db : DB) (sched : List Bool)
    (lead_name previous_task_name : String) (attempt_number : Nat)
    (assigned_to : String) (max_attempts : Nat) (today : Int) (t : Task)
    (hget : db.pending.getTask previous_task_name = some t)
    (hflag : t.custom_retry_created = true) :
    create_retry_task db sched lead_name previous_task_name attempt_number
      assigned_to max_attempts today = ⟨Outcome.ok, db, sched⟩ := by
  unfold create_retry_task
  rw [hget]
  simp [hflag]

/-! ## Concrete records used by the closed theorems -/

/-- A first-contact task in the state the retry sweep cares about. -/
def baseTask : Task :=
  { title := "Make First Contact"
    assigned_to := "owner@example.com"
    status := "Call Not Connected"
    priority := "Medium"
    description := "Task auto-created for lead L1"
    start_date := 0
    due_date := 2
    custom_attempt_number := some 1
    custom_max_attempts := some 10
    custom_retry_interval_days := some 2
    custom_lead_name := "L1"
    custom_previous_task := none
    custom_retry_created := false
    custom_callback_datetime := none
    custom_callback_date_time := none
    custom_callback_notification_sent := false }

def baseLead : Lead :=
  { status := "Open", comments := [] }

def emptyStore : Store :=
  { nextId := 1, tasks := [], leads := [], todos := [], notifLog := [],
    emailsSent := [], users := [] }

/-- Store for the C2 evidence: one task whose due date has passed. -/
def storeC2 : Store :=
  { emptyStore with
    tasks := [("T1", { baseTask with due_date := 9 })]
    leads := [("L1", baseLead)] }

/-- Store for the C1 counterexample: the final task of a chain, at the
max-attempts ceiling, still unprocessed. -/
def storeC1x : Store :=
  { emptyStore with
    tasks := [("T1", { baseTask with custom_attempt_number := some 10 })]
    leads := [("L1", baseLead)] }

/-- Store for the C6 counterexample: a predecessor task at attempt 3. -/
def storeC6 : Store :=
  { emptyStore with
    tasks := [("T1", { baseTask with custom_attempt_number := some 3 })]
    leads := [("L1", baseLead)] }

/-- Store for the C10 theorem: a task not yet stamped with a callback
time. -/
def storeC10 : Store :=
  { emptyStore with
    tasks := [("T1", baseTask)]
    leads := [("L1", baseLead)] }

/-! ## Claim theorems (closed statements) -/

/-- C2: the claim says the daily sweep selects the tasks whose status is
"Call Not Connected", whose due-date is less than or equal to now, and
whose retry-created flag is false.  The source filter compares
`due_date >= nowdate()`, so a task whose due date passed yesterday
(due 9, today 10) is not selected and the sweep invokes no evaluator on
it, while the filter the claim and the spec describe selects it. -/
theorem C2_sweep_filter_divergence :
    pendingRetryFilter 10 { baseTask with due_date := 9 } = false ∧
    pendingRetryFilterSpec 10 { baseTask with due_date := 9 } = true ∧
    check_all_pending_retry_tasks (mkDB storeC2) [] 10 = (mkDB storeC2, []) := by
  refine ⟨by decide, by decide, ?_⟩
  decide

/-- C1 counterexample: for the previous task "T1" with
`custom_retry_created = false` and status "Call Not Connected" but
attempt number 10 = max attempts, the first call of `create_retry_task`
creates no retry task (the task list keeps length 1; the call takes the
escalation branch), so the claim "the first call creates the retry task"
fails at this input. -/
theorem C1_counterexample :
    (storeC1x.getTask "T1").map Task.custom_retry_created = some false ∧
    (storeC1x.getTask "T1").map Task.status = some "Call Not Connected" ∧
    (create_retry_task (mkDB storeC1x) [] "L1" "T1" 10 "owner@example.com" 10
        0).db.pending.tasks.length = storeC1x.tasks.length := by
  refine ⟨by decide, by decide, ?_⟩
  decide

/-- C6 counterexample: `schedule_followup_task` creates a task whose
`custom_previous_task` points at "T1" (stored attempt number 3) but which
carries no attempt number at all, so its attempt number is not the
attempt of the predecessor plus one and the claimed invariant fails on this chain. -/
theorem C6_counterexample :
    (storeC6.getTask "T1").map Task.custom_attempt_number = some (some 3) ∧
    (schedule_followup_task (mkDB storeC6) [] "L1" "T1" "owner@example.com"
        "Re-engage Not Interested Lead" 30 "Follow-up" 0).1.committed.getTask
        "CRM-TASK-1" =
      some (followupTaskFields "L1" "T1" "owner@example.com"
        "Re-engage Not Interested Lead" "Follow-up" 30 0) ∧
    (followupTaskFields "L1" "T1" "owner@example.com"
        "Re-engage Not Interested Lead" "Follow-up" 30 0).custom_previous_task =
      some "T1" ∧
    (followupTaskFields "L1" "T1" "owner@example.com"
        "Re-engage Not Interested Lead" "Follow-up" 30 0).custom_attempt_number ≠
      some 4 := by
  refine ⟨by decide, ?_, by decide, by decide⟩
  decide

/-- C10: `create_callback_task` is not atomic on failure: with the stamp
save succeeding and the new-task insert failing, the endpoint returns
`success = false` while the committed store already holds the original
task stamped with the callback datetime (the request handler commits the
transaction because the body swallowed the exception). -/
theorem C10_callback_not_atomic :
    (create_callback_task (mkDB storeC10) [true, false] "T1" 5000).1.success =
      false ∧
    ((create_callback_task (mkDB storeC10) [true, false] "T1"
        5000).2.1.committed.getTask "T1").map Task.custom_callback_datetime =
      some (some 5000) ∧
    (storeC10.getTask "T1").map Task.custom_callback_datetime = some none := by
  refine ⟨?_, ?_, by decide⟩
  · decide
  · decide

/-- Store for the C8 witness: a task whose status moved on. -/
def storeC8 : Store :=
  { emptyStore with
    tasks := [("T1", { baseTask with status := "Interested" })]
    leads := [("L1", baseLead)] }

/-- C8: for every task whose freshly fetched status is not
"Call Not Connected", `create_retry_task` is a no-op: it returns normally
with the database unchanged, for any failure schedule and any attempt
number. -/
theorem C8_status_guard_noop (db : DB) (sched : List Bool)
    (lead_name previous_task_name : String) (attempt_number : Nat)
    (assigned_to : String) (max_attempts : Nat) (today : Int) (t : Task)
    (hget : db.pending.getTask previous_task_name = some t)
    (hst : t.status ≠ "Call Not Connected") :
    create_retry_task db sched lead_name previous_task_name attempt_number
      assigned_to max_attempts today = ⟨Outcome.ok, db, sched⟩ := by
  unfold create_retry_task
  rw [hget]
  cases hflag : t.custom_retry_created
  · simp [hflag, hst]
  · simp [hflag]

/-- Witness for C8 at a concrete store: a task whose status is
"Interested" is left alone by the evaluator. -/
theorem C8_status_guard_noop_witness :
    create_retry_task (mkDB storeC8) [] "L1" "T1" 1 "owner@example.com" 10 0 =
      ⟨Outcome.ok, mkDB storeC8, []⟩ :=
  C8_status_guard_noop (mkDB storeC8) [] "L1" "T1" 1 "owner@example.com" 10 0
    { baseTask with status := "Interested" } (by decide) (by decide)

/-- The store produced by the success path of the retry branch: insert
the next attempt, flip the guard flag on the previous task, and add the
assignment when there is an assignee. -/
def finalRetryStore (s : Store) (lead_name previous_task_name : String)
    (attempt_number : Nat) (assigned_to : String) (max_attempts : Nat)
    (today : Int) (t : Task) : Store :=
  let ins := s.insertTask (retryTaskFields lead_name previous_task_name
    (attempt_number + 1) max_attempts assigned_to today)
  let s2 := ins.1.saveTask previous_task_name { t with custom_retry_created := true }
  if assigned_to ≠ "" then
    s2.insertToDo
      { allocated_to := assigned_to
        reference_name := ins.2
        description := "Retry task assigned: Retry Call - Attempt " ++
          toString (attempt_number + 1)
        priority := "Medium" }
  else s2

/-- On an all-success schedule, the retry branch of `create_retry_task`
returns normally and commits `finalRetryStore`. -/
theorem retry_success_run (db : DB) (lead_name previous_task_name : String)
    (attempt_number : Nat) (assigned_to : String) (max_attempts : Nat)
    (today : Int) (t : Task)
    (hget : db.pending.getTask previous_task_name = some t)
    (hflag : t.custom_retry_created = false)
    (hst : t.status = "Call Not Connected")
    (hlt : attempt_number < max_attempts) :
    create_retry_task db [] lead_name previous_task_name attempt_number
      assigned_to max_attempts today =
      ⟨Outcome.ok,
        ⟨finalRetryStore db.pending lead_name previous_task_name attempt_number
            assigned_to max_attempts today t,
          finalRetryStore db.pending lead_name previous_task_name attempt_number
            assigned_to max_attempts today t⟩, []⟩ := by
  have hnle : ¬ max_attempts ≤ attempt_number := Nat.not_le.mpr hlt
  unfold create_retry_task
  rw [hget]
  by_cases hass : assigned_to = ""
  · simp [hflag, hst, hnle, hass, takeStep, finalRetryStore, DB.commit]
  · simp [hflag, hst, hnle, hass, takeStep, finalRetryStore, DB.commit]

theorem ne_fresh_of_get (s : Store) (nm : String) (t : Task)
    (hget : s.getTask nm = some t)
    (hfresh : s.getTask (freshTaskName s) = none) :
    nm ≠ freshTaskName s := by
  intro he
  rw [he, hfresh] at hget
  exact Option.noConfusion hget

theorem finalRetryStore_getTask_fresh (s : Store)
    (lead_name previous_task_name : String) (attempt_number : Nat)
    (assigned_to : String) (max_attempts : Nat) (today : Int) (t : Task)
    (hget : s.getTask previous_task_name = some t)
    (hfresh : s.getTask (freshTaskName s) = none) :
    (finalRetryStore s lead_name previous_task_name attempt_number assigned_to
        max_attempts today t).getTask (freshTaskName s) =
      some (retryTaskFields lead_name previous_task_name (attempt_number + 1)
        max_attempts assigned_to today) := by
  have hne := ne_fresh_of_get s previous_task_name t hget hfresh
  have hfresh2 : lookupA s.tasks (freshTaskName s) = none := hfresh
  by_cases hass : assigned_to = ""
  · subst hass
    simp [finalRetryStore, Store.getTask, Store.saveTask, Store.insertTask,
      Store.insertToDo, lookupA_setA_ne _ _ _ _ hne,
      lookupA_append_of_none _ _ _ hfresh2, lookupA]
  · simp [finalRetryStore, hass, Store.getTask, Store.saveTask,
      Store.insertTask, Store.insertToDo, lookupA_setA_ne _ _ _ _ hne,
      lookupA_append_of_none _ _ _ hfresh2, lookupA]

theorem finalRetryStore_getTask_prev (s : Store)
    (lead_name previous_task_name : String) (attempt_number : Nat)
    (assigned_to : String) (max_attempts : Nat) (today : Int) (t : Task) :
    (finalRetryStore s lead_name previous_task_name attempt_number assigned_to
        max_attempts today t).getTask previous_task_name =
      some { t with custom_retry_created := true } := by
  by_cases hass : assigned_to = ""
  · simp [finalRetryStore, hass, Store.getTask, Store.saveTask,
      Store.insertTask, Store.insertToDo, lookupA_setA_self]
  · simp [finalRetryStore, hass, Store.getTask, Store.saveTask,
      Store.insertTask, Store.insertToDo, lookupA_setA_self]

theorem finalRetryStore_length (s : Store)
    (lead_name previous_task_name : String) (attempt_number : Nat)
    (assigned_to : String) (max_attempts : Nat) (today : Int) (t : Task)
    (hget : s.getTask previous_task_name = some t) :
    (finalRetryStore s lead_name previous_task_name attempt_number assigned_to
        max_attempts today t).tasks.length = s.tasks.length + 1 := by
  have hmem : lookupA (s.tasks ++ [(freshTaskName s,
      retryTaskFields lead_name previous_task_name (attempt_number + 1)
        max_attempts assigned_to today)]) previous_task_name = some t :=
    lookupA_append_of_some _ _ _ _ hget
  by_cases hass : assigned_to = ""
  · subst hass
    simp [finalRetryStore, Store.saveTask, Store.insertTask,
      Store.insertToDo, length_setA_of_mem _ _ _ _ hmem]
  · simp [finalRetryStore, hass, Store.saveTask, Store.insertTask,
      Store.insertToDo, length_setA_of_mem _ _ _ _ hmem]

theorem finalRetryStore_todos (s : Store)
    (lead_name previous_task_name : String) (attempt_number : Nat)
    (assigned_to : String) (max_attempts : Nat) (today : Int) (t : Task) :
    (finalRetryStore s lead_name previous_task_name attempt_number assigned_to
        max_attempts today t).todos =
      if assigned_to ≠ "" then
        s.todos ++
          [{ allocated_to := assigned_to
             reference_name := freshTaskName s
             description := "Retry task assigned: Retry Call - Attempt " ++
               toString (attempt_number + 1)
             priority := "Medium" }]
      else s.todos := by
  by_cases hass : assigned_to = ""
  · simp [finalRetryStore, hass, Store.saveTask, Store.insertTask,
      Store.insertToDo]
  · simp [finalRetryStore, hass, Store.saveTask, Store.insertTask,
      Store.insertToDo]

/-- Store for the C7 witness. -/
def storeC7 : Store :=
  { emptyStore with
    tasks := [("T1", baseTask)]
    leads := [("L1", baseLead)] }

/-- C7: on the retry path (guard flag false, status "Call Not Connected",
attempt below ceiling) the evaluator creates exactly one new task — with
attempt number one higher, due date today plus 2, previous-task reference
to the evaluated task, the same assignee and lead — marks the prior
flag on the prior task, and adds an Assignment exactly when the assignee is
non-empty. -/
theorem C7_retry_path (db : DB) (lead_name previous_task_name : String)
    (attempt_number : Nat) (assigned_to : String) (max_attempts : Nat)
    (today : Int) (t : Task)
    (hget : db.pending.getTask previous_task_name = some t)
    (hflag : t.custom_retry_created = false)
    (hst : t.status = "Call Not Connected")
    (hlt : attempt_number < max_attempts)
    (hfresh : db.pending.getTask (freshTaskName db.pending) = none) :
    (create_retry_task db [] lead_name previous_task_name attempt_number
        assigned_to max_attempts today).outcome = Outcome.ok ∧
    (create_retry_task db [] lead_name previous_task_name attempt_number
        assigned_to max_attempts today).db.committed.getTask
        (freshTaskName db.pending) =
      some (retryTaskFields lead_name previous_task_name (attempt_number + 1)
        max_attempts assigned_to today) ∧
    (retryTaskFields lead_name previous_task_name (attempt_number + 1)
        max_attempts assigned_to today).custom_attempt_number =
      some (attempt_number + 1) ∧
    (retryTaskFields lead_name previous_task_name (attempt_number + 1)
        max_attempts assigned_to today).due_date = today + 2 ∧
    (retryTaskFields lead_name previous_task_name (attempt_number + 1)
        max_attempts assigned_to today).custom_previous_task =
      some previous_task_name ∧
    (retryTaskFields lead_name previous_task_name (attempt_number + 1)
        max_attempts assigned_to today).assigned_to = assigned_to ∧
    (retryTaskFields lead_name previous_task_name (attempt_number + 1)
        max_attempts assigned_to today).custom_lead_name = lead_name ∧
    (create_retry_task db [] lead_name previous_task_name attempt_number
        assigned_to max_attempts today).db.committed.getTask
        previous_task_name = some { t with custom_retry_created := true } ∧
    (create_retry_task db [] lead_name previous_task_name attempt_number
        assigned_to max_attempts today).db.committed.tasks.length =
      db.pending.tasks.length + 1 ∧
    (create_retry_task db [] lead_name previous_task_name attempt_number
        assigned_to max_attempts today).db.committed.todos =
      (if assigned_to ≠ "" then
        db.pending.todos ++
          [{ allocated_to := assigned_to
             reference_name := freshTaskName db.pending
             description := "Retry task assigned: Retry Call - Attempt " ++
               toString (attempt_number + 1)
             priority := "Medium" }]
      else db.pending.todos) := by
  rw [retry_success_run db lead_name previous_task_name attempt_number
    assigned_to max_attempts today t hget hflag hst hlt]
  refine ⟨rfl, ?_, rfl, rfl, rfl, rfl, rfl, ?_, ?_, ?_⟩
  · exact finalRetryStore_getTask_fresh db.pending lead_name previous_task_name
      attempt_number assigned_to max_attempts today t hget hfresh
  · exact finalRetryStore_getTask_prev db.pending lead_name previous_task_name
      attempt_number assigned_to max_attempts today t
  · exact finalRetryStore_length db.pending lead_name previous_task_name
      attempt_number assigned_to max_attempts today t hget
  · exact finalRetryStore_todos db.pending lead_name previous_task_name
      attempt_number assigned_to max_attempts today t

/-- Witness for C7 at a concrete store: the retry of "T1" lands under the
fresh name with attempt 2. -/
theorem C7_retry_path_witness :
    (create_retry_task (mkDB storeC7) [] "L1" "T1" 1 "owner@example.com" 10
        0).db.committed.getTask (freshTaskName storeC7) =
      some (retryTaskFields "L1" "T1" 2 10 "owner@example.com" 0) :=
  (C7_retry_path (mkDB storeC7) "L1" "T1" 1 "owner@example.com" 10 0 baseTask
    (by decide) (by decide) (by decide) (by decide) (by decide)).2.1

/-- The store produced by the success path of the escalation branch:
flag the previous task and drop the lead. -/
def finalEscStore (s : Store) (lead_name previous_task_name : String)
    (max_attempts : Nat) (t : Task) (ld : Lead) : Store :=
  (s.saveTask previous_task_name { t with custom_retry_created := true }).saveLead
    lead_name
    { ld with
      status := "Inactive / Dropped"
      comments := ld.comments ++ [escalationComment max_attempts] }

/-- On an all-success schedule, the escalation branch of
`create_retry_task` returns normally and commits `finalEscStore`. -/
theorem esc_success_run (db : DB) (lead_name previous_task_name : String)
    (attempt_number : Nat) (assigned_to : String) (max_attempts : Nat)
    (today : Int) (t : Task) (ld : Lead)
    (hget : db.pending.getTask previous_task_name = some t)
    (hflag : t.custom_retry_created = false)
    (hst : t.status = "Call Not Connected")
    (hge : max_attempts ≤ attempt_number)
    (hlead : db.pending.getLead lead_name = some ld) :
    create_retry_task db [] lead_name previous_task_name attempt_number
      assigned_to max_attempts today =
      ⟨Outcome.ok,
        ⟨finalEscStore db.pending lead_name previous_task_name max_attempts t ld,
          finalEscStore db.pending lead_name previous_task_name max_attempts t ld⟩,
        []⟩ := by
  unfold create_retry_task
  rw [hget]
  simp [hflag, hst, hge, takeStep, DB.commit, getLead_saveTask, hlead,
    finalEscStore]

/-- Store for the C3 witness: the final task of the chain at the ceiling. -/
def storeC3 : Store :=
  { emptyStore with
    tasks := [("T1", { baseTask with custom_attempt_number := some 10 })]
    leads := [("L1", baseLead)] }

/-- C3: evaluating the retry evaluator on the final task of a chain at
the max-attempts ceiling performs the terminal lead transition exactly
once: the first run sets the lead to "Inactive / Dropped" with one
provenance comment and creates no further task, and any number of
further runs leave the database fixed. -/
theorem C3_escalation_exactly_once (db : DB)
    (lead_name previous_task_name : String) (attempt_number : Nat)
    (assigned_to : String) (max_attempts : Nat) (today : Int) (t : Task)
    (ld : Lead)
    (hget : db.pending.getTask previous_task_name = some t)
    (hflag : t.custom_retry_created = false)
    (hst : t.status = "Call Not Connected")
    (hge : max_attempts ≤ attempt_number)
    (hlead : db.pending.getLead lead_name = some ld) :
    (create_retry_task db [] lead_name previous_task_name attempt_number
        assigned_to max_attempts today).outcome = Outcome.ok ∧
    (create_retry_task db [] lead_name previous_task_name attempt_number
        assigned_to max_attempts today).db.committed.getLead lead_name =
      some { ld with
        status := "Inactive / Dropped"
        comments := ld.comments ++ [escalationComment max_attempts] } ∧
    (create_retry_task db [] lead_name previous_task_name attempt_number
        assigned_to max_attempts today).db.committed.tasks.length =
      db.pending.tasks.length ∧
    (∀ n : Nat,
      (fun d => (create_retry_task d [] lead_name previous_task_name
        attempt_number assigned_to max_attempts today).db)^[n]
        (create_retry_task db [] lead_name previous_task_name attempt_number
          assigned_to max_attempts today).db =
      (create_retry_task db [] lead_name previous_task_name attempt_number
        assigned_to max_attempts today).db) := by
  rw [esc_success_run db lead_name previous_task_name attempt_number
    assigned_to max_attempts today t ld hget hflag hst hge hlead]
  refine ⟨rfl, ?_, ?_, ?_⟩
  · show lookupA (setA db.pending.leads lead_name _) lead_name = _
    exact lookupA_setA_self _ _ _
  · show (setA db.pending.tasks previous_task_name _).length = _
    exact length_setA_of_mem _ _ _ _ hget
  · intro n
    refine Function.iterate_fixed ?_ n
    have hget2 : (finalEscStore db.pending lead_name previous_task_name
        max_attempts t ld).getTask previous_task_name =
        some { t with custom_retry_created := true } := by
      show lookupA (setA db.pending.tasks previous_task_name _)
        previous_task_name = _
      exact lookupA_setA_self _ _ _
    rw [create_retry_task_flagged_noop _ [] lead_name previous_task_name
      attempt_number assigned_to max_attempts today _ hget2 rfl]

/-- Witness for C3 at a concrete store: the lead is dropped with one
provenance comment. -/
theorem C3_escalation_exactly_once_witness :
    (create_retry_task (mkDB storeC3) [] "L1" "T1" 10 "owner@example.com" 10
        0).db.committed.getLead "L1" =
      some { status := "Inactive / Dropped"
             comments := [escalationComment 10] } :=
  (C3_escalation_exactly_once (mkDB storeC3) "L1" "T1" 10 "owner@example.com"
    10 0 { baseTask with custom_attempt_number := some 10 } baseLead
    (by decide) (by decide) (by decide) (by decide) (by decide)).2.1

/-- Store for the C1 amended-claim witness. -/
def storeC1 : Store :=
  { emptyStore with
    tasks := [("T1", baseTask)]
    leads := [("L1", baseLead)] }

/-- C1 (amended): when additionally the attempt number is below the
max-attempts ceiling, invoking `create_retry_task` twice on a previous
task with guard flag false and status "Call Not Connected" creates
exactly one retry task: the first call adds one task and sets the flag,
the second call returns with the database unchanged. -/
theorem C1_retry_idempotent (db : DB) (lead_name previous_task_name : String)
    (attempt_number : Nat) (assigned_to : String) (max_attempts : Nat)
    (today : Int) (t : Task)
    (hget : db.pending.getTask previous_task_name = some t)
    (hflag : t.custom_retry_created = false)
    (hst : t.status = "Call Not Connected")
    (hlt : attempt_number < max_attempts) :
    (create_retry_task db [] lead_name previous_task_name attempt_number
        assigned_to max_attempts today).outcome = Outcome.ok ∧
    (create_retry_task db [] lead_name previous_task_name attempt_number
        assigned_to max_attempts today).db.pending.tasks.length =
      db.pending.tasks.length + 1 ∧
    (create_retry_task db [] lead_name previous_task_name attempt_number
        assigned_to max_attempts today).db.pending.getTask previous_task_name =
      some { t with custom_retry_created := true } ∧
    create_retry_task
        (create_retry_task db [] lead_name previous_task_name attempt_number
          assigned_to max_attempts today).db []
        lead_name previous_task_name attempt_number assigned_to max_attempts
        today =
      ⟨Outcome.ok,
        (create_retry_task db [] lead_name previous_task_name attempt_number
          assigned_to max_attempts today).db, []⟩ := by
  rw [retry_success_run db lead_name previous_task_name attempt_number
    assigned_to max_attempts today t hget hflag hst hlt]
  refine ⟨rfl, ?_, ?_, ?_⟩
  · exact finalRetryStore_length db.pending lead_name previous_task_name
      attempt_number assigned_to max_attempts today t hget
  · exact finalRetryStore_getTask_prev db.pending lead_name previous_task_name
      attempt_number assigned_to max_attempts today t
  · exact create_retry_task_flagged_noop _ [] lead_name previous_task_name
      attempt_number assigned_to max_attempts today _
      (finalRetryStore_getTask_prev db.pending lead_name previous_task_name
        attempt_number assigned_to max_attempts today t) rfl

/-- Witness for the amended C1 at a concrete store: the second call is a
no-op. -/
theorem C1_retry_idempotent_witness :
    create_retry_task
        (create_retry_task (mkDB storeC1) [] "L1" "T1" 1 "owner@example.com" 10
          0).db []
        "L1" "T1" 1 "owner@example.com" 10 0 =
      ⟨Outcome.ok,
        (create_retry_task (mkDB storeC1) [] "L1" "T1" 1 "owner@example.com" 10
          0).db, []⟩ :=
  (C1_retry_idempotent (mkDB storeC1) "L1" "T1" 1 "owner@example.com" 10 0
    baseTask (by decide) (by decide) (by decide) (by decide)).2.2.2

/-- Store for the C4 theorem: two chains both at the max-attempts
ceiling, both eligible for the daily sweep. -/
def storeC4 : Store :=
  { emptyStore with
    tasks := [("T1", { baseTask with custom_attempt_number := some 10 }),
              ("T2", { baseTask with
                custom_lead_name := "L2"
                custom_attempt_number := some 10 })]
    leads := [("L1", baseLead), ("L2", baseLead)] }

/-- C4: the claim says the escalation persists the task-flag update and
the lead update atomically — on any persistence failure neither is
observably changed.  The code violates this: the sweep catches the
exception raised after the flag save (line 142) and continues, and the
commit issued while processing the next item (line 199) — or the
scheduler commit at the end of the job — durably persists that flag
while the lead was never dropped.  Concretely, sweeping two chains at
the ceiling with the schedule [true, false] (first flag save succeeds,
first lead save fails) ends with the first task committed as processed,
its lead still "Open", and only the second lead dropped; the stranded
lead is then skipped forever by the idempotency guard. -/
theorem C4_escalation_not_atomic :
    ((check_all_pending_retry_tasks (mkDB storeC4) [true, false]
        0).1.committed.getTask "T1").map Task.custom_retry_created =
      some true ∧
    ((check_all_pending_retry_tasks (mkDB storeC4) [true, false]
        0).1.committed.getLead "L1").map Lead.status = some "Open" ∧
    ((check_all_pending_retry_tasks (mkDB storeC4) [true, false]
        0).1.committed.getLead "L2").map Lead.status =
      some "Inactive / Dropped" := by
  refine ⟨?_, ?_, ?_⟩ <;> decide

/-- Store for the C5 witness. -/
def storeC5 : Store :=
  { emptyStore with
    tasks := [("T1", baseTask)]
    leads := [("L1", baseLead)] }

/-- C5: on the retry path the guard flag is flipped only after the new
retry task is persisted: a run whose new-task insert fails leaves the
database entirely unchanged, and for every failure schedule, whenever the
guard flag of the previous task ends up set, the new retry task is present in the
store. -/
theorem C5_flag_only_after_insert (db : DB)
    (lead_name previous_task_name : String) (attempt_number : Nat)
    (assigned_to : String) (max_attempts : Nat) (today : Int) (t : Task)
    (hget : db.pending.getTask previous_task_name = some t)
    (hflag : t.custom_retry_created = false)
    (hst : t.status = "Call Not Connected")
    (hlt : attempt_number < max_attempts)
    (hfresh : db.pending.getTask (freshTaskName db.pending) = none) :
    (∀ rest : List Bool,
      create_retry_task db (false :: rest) lead_name previous_task_name
        attempt_number assigned_to max_attempts today =
      ⟨Outcome.error, db, rest⟩) ∧
    (∀ sched : List Bool,
      ((create_retry_task db sched lead_name previous_task_name attempt_number
          assigned_to max_attempts today).db.pending.getTask
          previous_task_name).map Task.custom_retry_created = some true →
      (create_retry_task db sched lead_name previous_task_name attempt_number
          assigned_to max_attempts today).db.pending.getTask
          (freshTaskName db.pending) =
        some (retryTaskFields lead_name previous_task_name (attempt_number + 1)
          max_attempts assigned_to today)) := by
  have hnle : ¬ max_attempts ≤ attempt_number := Nat.not_le.mpr hlt
  have hne := ne_fresh_of_get db.pending previous_task_name t hget hfresh
  have hfresh2 : lookupA db.pending.tasks (freshTaskName db.pending) = none :=
    hfresh
  constructor
  · intro rest
    unfold create_retry_task
    rw [hget]
    simp [hflag, hst, hnle, takeStep]
  · intro sched
    rcases sched with _ | ⟨b1, sched⟩
    · intro _
      unfold create_retry_task
      rw [hget]
      by_cases hass : assigned_to = "" <;>
        simp [hflag, hst, hnle, takeStep, hass, DB.commit, Store.getTask,
          Store.saveTask, Store.insertTask, Store.insertToDo,
          lookupA_setA_ne _ _ _ _ hne,
          lookupA_append_of_none _ _ _ hfresh2, lookupA]
    · cases b1
      · have hres : create_retry_task db (false :: sched) lead_name
            previous_task_name attempt_number assigned_to max_attempts today =
            ⟨Outcome.error, db, sched⟩ := by
          unfold create_retry_task
          rw [hget]
          simp [hflag, hst, hnle, takeStep]
        rw [hres]
        intro hyp
        rw [hget] at hyp
        simp [hflag] at hyp
      · intro _
        unfold create_retry_task
        rw [hget]
        rcases sched with _ | ⟨b2, _ | ⟨b3, _ | ⟨b4, sched⟩⟩⟩ <;>
          (try cases b2) <;> (try cases b3) <;> (try cases b4) <;>
          by_cases hass : assigned_to = "" <;>
            simp [hflag, hst, hnle, takeStep, hass, DB.commit, Store.getTask,
              Store.saveTask, Store.insertTask, Store.insertToDo,
              lookupA_setA_ne _ _ _ _ hne,
              lookupA_append_of_none _ _ _ hfresh2, lookupA]

/-- Witness for C5 at a concrete store: a failing insert leaves the
database unchanged. -/
theorem C5_flag_only_after_insert_witness :
    create_retry_task (mkDB storeC5) [false] "L1" "T1" 1 "owner@example.com"
      10 0 = ⟨Outcome.error, mkDB storeC5, []⟩ :=
  (C5_flag_only_after_insert (mkDB storeC5) "L1" "T1" 1 "owner@example.com" 10
    0 baseTask (by decide) (by decide) (by decide) (by decide) (by decide)).1
    []

/-- C6 (amended): along `previousTask` links created by
`create_retry_task` — invoked, as the sweep does, with the stored attempt of the
predecessor number — the attempt number increases by exactly 1: the
new task records the predecessor as its previous task and carries
attempt number `n + 1` when the predecessor stores `n`.  (Follow-up and
callback tasks also set `previousTask` but carry no attempt number; see
the counterexample.) -/
theorem C6_retry_chain_attempt (db : DB)
    (lead_name previous_task_name : String) (assigned_to : String)
    (max_attempts : Nat) (today : Int) (t : Task) (n : Nat)
    (hget : db.pending.getTask previous_task_name = some t)
    (hatt : t.custom_attempt_number = some n)
    (hn : n ≠ 0)
    (hflag : t.custom_retry_created = false)
    (hst : t.status = "Call Not Connected")
    (hlt : n < max_attempts)
    (hfresh : db.pending.getTask (freshTaskName db.pending) = none) :
    sweepAttempt t = n ∧
    (create_retry_task db [] lead_name previous_task_name (sweepAttempt t)
        assigned_to max_attempts today).db.pending.getTask
        (freshTaskName db.pending) =
      some (retryTaskFields lead_name previous_task_name (n + 1) max_attempts
        assigned_to today) ∧
    (retryTaskFields lead_name previous_task_name (n + 1) max_attempts
        assigned_to today).custom_attempt_number = some (n + 1) ∧
    (retryTaskFields lead_name previous_task_name (n + 1) max_attempts
        assigned_to today).custom_previous_task = some previous_task_name := by
  have hSA : sweepAttempt t = n := by
    cases n with
    | zero => exact absurd rfl hn
    | succ k => simp [sweepAttempt, hatt]
  refine ⟨hSA, ?_, rfl, rfl⟩
  rw [hSA, retry_success_run db lead_name previous_task_name n assigned_to
    max_attempts today t hget hflag hst hlt]
  exact finalRetryStore_getTask_fresh db.pending lead_name previous_task_name
    n assigned_to max_attempts today t hget hfresh

/-- Witness for the amended C6 at a concrete store: the retry of a task
at attempt 3 carries attempt 4. -/
theorem C6_retry_chain_attempt_witness :
    (create_retry_task (mkDB storeC6) [] "L1" "T1"
        (sweepAttempt { baseTask with custom_attempt_number := some 3 })
        "owner@example.com" 10 0).db.pending.getTask (freshTaskName storeC6) =
      some (retryTaskFields "L1" "T1" 4 10 "owner@example.com" 0) :=
  (C6_retry_chain_attempt (mkDB storeC6) "L1" "T1" "owner@example.com" 10 0
    { baseTask with custom_attempt_number := some 3 } 3 (by decide) (by decide)
    (by decide) (by decide) (by decide) (by decide) (by decide)).2.1

theorem userEmail_insertNotif (s : Store) (nr : NotifRec) (u : String) :
    (s.insertNotif nr).userEmail u = s.userEmail u := rfl

/-- The store produced by the success path of
`send_callback_reminder_notification`: notification inserted, email sent
when the assignee has a known address, flag set. -/
def finalReminderStore (s : Store) (task_name : String) (t : Task) : Store :=
  let p1 := s.insertNotif
    { subject := "Callback Reminder: " ++ t.title
      for_user := t.assigned_to
      document_name := task_name }
  let p2 :=
    if t.assigned_to ≠ "" then
      match s.userEmail t.assigned_to with
      | none => p1
      | some addr => p1.sendEmail
          { recipient := addr
            subject := "Callback Reminder: " ++ t.title
            reference_name := task_name }
    else p1
  p2.saveTask task_name { t with custom_callback_notification_sent := true }

/-- On an all-success schedule and a fresh database, the callback
reminder returns the committed `finalReminderStore`. -/
theorem reminder_success_run (s : Store) (task_name : String) (t : Task)
    (hget : s.getTask task_name = some t) :
    send_callback_reminder_notification (mkDB s) [] task_name =
      (⟨finalReminderStore s task_name t, finalReminderStore s task_name t⟩,
        []) := by
  unfold send_callback_reminder_notification
  rw [show (mkDB s).pending.getTask task_name = some t from hget]
  by_cases hass : t.assigned_to = ""
  · simp [hass, takeStep, DB.commit, finalReminderStore, mkDB]
  · cases hmail : s.userEmail t.assigned_to <;>
      simp [hass, hmail, takeStep, DB.commit, finalReminderStore, mkDB,
        userEmail_insertNotif]

/-- Store for the C9 counterexample: a callback at exactly now + 90
minutes, the right edge of the window. -/
def storeC9x : Store :=
  { emptyStore with
    tasks := [("T1", { baseTask with
      status := "Todo"
      custom_callback_date_time := some 90 })]
    leads := [("L1", baseLead)]
    users := [("owner@example.com", "owner@mail.example.com")] }

/-- C9 counterexample: a task whose callback time is exactly now + 1h30m
is selected and processed by the source sweep (the SQL `between` is
inclusive at both ends), while the half-open window [now+1h, now+1h30m)
the claim describes excludes it. -/
theorem C9_counterexample :
    callbackSelects 0 { baseTask with
      status := "Todo"
      custom_callback_date_time := some 90 } = true ∧
    callbackWindowSpec 0 90 = false ∧
    ((send_callback_notifications (mkDB storeC9x) [] 0).1.committed.getTask
        "T1").map Task.custom_callback_notification_sent = some true := by
  refine ⟨by decide, by decide, ?_⟩
  decide

/-- C9 (amended): the sweep selects exactly the tasks whose callback
datetime lies in the closed window [now+1h, now+1h30m], whose
notification-sent flag is false and whose status is not "Completed"; for
a selected task it records one reminder notification, sends one email
exactly when the assignee is non-empty with a known address, and sets the
notification-sent flag, after which a later run of the sweep (at any
time) does nothing more. -/
theorem C9_callback_sweep (now now2 : Int) (nm : String) (t : Task)
    (s : Store)
    (hs : s.tasks = [(nm, t)])
    (hsel : callbackSelects now t = true) :
    (∀ (n3 : Int) (t3 : Task), callbackSelects n3 t3 = true ↔
      ((∃ cb : Int, t3.custom_callback_date_time = some cb ∧
          n3 + 60 ≤ cb ∧ cb ≤ n3 + 90) ∧
        t3.custom_callback_notification_sent = false ∧
        t3.status ≠ "Completed")) ∧
    (send_callback_notifications (mkDB s) [] now).1.committed.getTask nm =
      some { t with custom_callback_notification_sent := true } ∧
    (send_callback_notifications (mkDB s) [] now).1.committed.notifLog =
      s.notifLog ++
        [{ subject := "Callback Reminder: " ++ t.title
           for_user := t.assigned_to
           document_name := nm }] ∧
    (send_callback_notifications (mkDB s) [] now).1.committed.emailsSent =
      s.emailsSent ++
        (if t.assigned_to ≠ "" then
          (match s.userEmail t.assigned_to with
           | none => []
           | some addr =>
             [{ recipient := addr
                subject := "Callback Reminder: " ++ t.title
                reference_name := nm }])
        else []) ∧
    send_callback_notifications (send_callback_notifications (mkDB s) []
        now).1 [] now2 =
      ((send_callback_notifications (mkDB s) [] now).1, []) := by
  have hget : s.getTask nm = some t := by
    show lookupA s.tasks nm = some t
    rw [hs]
    simp [lookupA]
  have hrun : send_callback_notifications (mkDB s) [] now =
      (⟨finalReminderStore s nm t, finalReminderStore s nm t⟩, []) := by
    unfold send_callback_notifications
    have hp : (mkDB s).pending = s := rfl
    rw [hp, hs]
    simp only [List.filter, hsel, List.foldl]
    exact reminder_success_run s nm t hget
  refine ⟨?_, ?_, ?_, ?_, ?_⟩
  · intro n3 t3
    cases hcb : t3.custom_callback_date_time <;>
      simp [callbackSelects, hcb, and_assoc]
  · rw [hrun]
    by_cases hass : t.assigned_to = ""
    · simp [finalReminderStore, hass, Store.getTask, Store.saveTask,
        Store.insertNotif, Store.sendEmail, lookupA_setA_self]
    · cases hmail : s.userEmail t.assigned_to <;>
        simp [finalReminderStore, hass, hmail, Store.getTask, Store.saveTask,
          Store.insertNotif, Store.sendEmail, lookupA_setA_self]
  · rw [hrun]
    by_cases hass : t.assigned_to = ""
    · simp [finalReminderStore, hass, Store.saveTask, Store.insertNotif,
        Store.sendEmail]
    · cases hmail : s.userEmail t.assigned_to <;>
        simp [finalReminderStore, hass, hmail, Store.saveTask,
          Store.insertNotif, Store.sendEmail]
  · rw [hrun]
    by_cases hass : t.assigned_to = ""
    · simp [finalReminderStore, hass, Store.saveTask, Store.insertNotif,
        Store.sendEmail]
    · cases hmail : s.userEmail t.assigned_to <;>
        simp [finalReminderStore, hass, hmail, Store.saveTask,
          Store.insertNotif, Store.sendEmail]
  · rw [hrun]
    unfold send_callback_notifications
    by_cases hass : t.assigned_to = ""
    · cases hcb : t.custom_callback_date_time <;>
        simp [finalReminderStore, hass, Store.saveTask, Store.insertNotif,
          Store.sendEmail, hs, setA, callbackSelects, hcb]
    · cases hmail : s.userEmail t.assigned_to <;>
        cases hcb : t.custom_callback_date_time <;>
          simp [finalReminderStore, hass, hmail, Store.saveTask,
            Store.insertNotif, Store.sendEmail, hs, setA, callbackSelects, hcb]

/-- Task and store for the C9 amended-claim witness: a callback 70
minutes out. -/
def taskC9w : Task :=
  { baseTask with
    status := "Todo"
    custom_callback_date_time := some 70 }

def storeC9w : Store :=
  { emptyStore with
    tasks := [("T1", taskC9w)]
    leads := [("L1", baseLead)]
    users := [("owner@example.com", "owner@mail.example.com")] }

/-- Witness for the amended C9 at a concrete store: the sweep at time 0
marks the selected callback task as notified. -/
theorem C9_callback_sweep_witness :
    (send_callback_notifications (mkDB storeC9w) [] 0).1.committed.getTask
        "T1" =
      some { taskC9w with custom_callback_notification_sent := true } :=
  (C9_callback_sweep 0 999 "T1" taskC9w storeC9w rfl (by decide)).2.1

end IndiazonaCRM
